import Mathlib

/-
Verification of `scripts/pharmgkb/drug_gene_relations/pharm.py`, the PharmGKB
drug/gene/relationship import.  The Python functions are shallowly embedded over
Lean `String`s (a Python string is its list of characters); Python `None`/`NaN`
cells are `Option.none`, a raised exception is `Except.error`, and a dictionary
is either an association list (for the mutable id-to-dcid maps) or a
`String → Option String` function (for the static config tables).  Writes to the
output mcf file are modelled as the list of written node blocks, in order.
-/

/-- Python `s.split(sep)` for a one-character separator, over the character
list: always returns at least one (possibly empty) segment. -/
def splitChar (sep : Char) : List Char → List (List Char)
  | [] => [[]]
  | c :: cs =>
    if c == sep then [] :: splitChar sep cs
    else
      match splitChar sep cs with
      | [] => [[c]]
      | h :: t => (c :: h) :: t

/-- Python `s.split(sep)` for a one-character separator. -/
def pysplit (sep : Char) (s : String) : List String :=
  (splitChar sep s.data).map (fun l => String.mk l)

/-- Python `s.count(c)` for a one-character substring. -/
def countChar (c : Char) (s : String) : Nat := s.data.count c

/-- Python `s.replace('"', '')`: removing every double-quote character. -/
def removeQuotes (s : String) : String :=
  String.mk (s.data.filter (fun ch => ch != '"'))

/-- Python whitespace as stripped by `str.strip()`. -/
def isPySpace (c : Char) : Bool :=
  c == ' ' || c == '\t' || c == '\n' || c == '\r' || c == '\x0b' || c == '\x0c'

/-- Strip characters satisfying `p` from both ends of a character list. -/
def stripWith (p : Char → Bool) (l : List Char) : List Char :=
  ((l.dropWhile p).reverse.dropWhile p).reverse

/-- Python `s.strip()`. -/
def pystrip (s : String) : String := String.mk (stripWith isPySpace s.data)

/-- Python `s.strip(c)` for a one-character strip set. -/
def pystripChar (c : Char) (s : String) : String :=
  String.mk (stripWith (fun x => x == c) s.data)

/-- Concatenation of a list of strings. -/
def strConcat : List String → String
  | [] => ""
  | s :: t => s ++ strConcat t

/-- Python `sep.join(l)`. -/
def joinSep (sep : String) : List String → String
  | [] => ""
  | [p] => p
  | p :: q :: t => p ++ sep ++ joinSep sep (q :: t)

/-- Core of Python `s.replace(pat, rep)` for a non-empty pattern `p0 :: ps`:
left-to-right, non-overlapping replacement. -/
def replaceFrom (p0 : Char) (ps rep : List Char) : List Char → List Char
  | [] => []
  | c :: cs =>
    if (p0 :: ps).isPrefixOf (c :: cs) then
      rep ++ replaceFrom p0 ps rep (List.drop ps.length cs)
    else c :: replaceFrom p0 ps rep cs
termination_by l => l.length
decreasing_by
  · simp only [List.length_cons, List.length_drop]; omega
  · simp only [List.length_cons]; omega

/-- Python `s.replace(pat, rep)` (the import only ever uses a non-empty `pat`;
for an empty pattern we return `s` unchanged). -/
def pyreplace (pat rep s : String) : String :=
  match pat.data with
  | [] => s
  | p :: ps => String.mk (replaceFrom p ps rep.data s.data)

/-- Whether `pat` occurs as a contiguous sublist of `l` (Python `pat in s`). -/
def hasSub (pat : List Char) (l : List Char) : Bool :=
  match l with
  | [] => pat.isEmpty
  | c :: cs => pat.isPrefixOf (c :: cs) || hasSub pat cs

/-- The string does not end in a comma (used to describe `str.strip(',')`). -/
def notTrailingComma (s : String) : Prop := s.data.getLast? ≠ some ','

/-- Python truthiness combined with the `pd.isnull` test of `merge_chembls`:
a cell passes when it is neither null (`none`) nor the empty string. -/
def truthy (x : Option String) : Bool :=
  match x with
  | none => false
  | some s => s != ""

/-- Pandas `fillna('')` applied to a single cell. -/
def fillna (x : Option String) : String := x.getD ""

/-- `merge_chembls` from pharm.py: strict priority among the three candidate
ChEMBL ids (PharmGKB-derived, then PubChem-derived, then InChI-derived);
returns `None` when all are null or empty. -/
def merge_chembls (chembl1 chembl2 chembl3 : Option String) : Option String :=
  if truthy chembl1 then chembl1
  else if truthy chembl2 then chembl2
  else if truthy chembl3 then chembl3
  else none

/-- `get_drug_dcid` from pharm.py, applied to the two row fields it reads
(`row['Chembl ID']` and `row['PharmGKB Accession Id']`). -/
def get_drug_dcid (chembl_id pharm_id : String) : String :=
  if chembl_id != "" then "bio/" ++ chembl_id else "bio/" ++ pharm_id

/-- Value stored in the gene id-to-dcid dictionary: `get_gene_dcids` returns a
Python list of dcids for a non-empty symbol but the bare string `''` for an
empty one, so the value type is this union. -/
inductive GeneVal where
  | dcids (l : List String)
  | str (s : String)
deriving DecidableEq

/-- Python iteration over a `GeneVal`: iterating a list yields its elements;
iterating a string yields its characters as one-character strings. -/
def iterGeneVal : GeneVal → List String
  | GeneVal.dcids l => l
  | GeneVal.str s => s.data.map (fun c => String.singleton c)

/-- `get_gene_dcids` from pharm.py. -/
def get_gene_dcids (symbol : String) : GeneVal :=
  if symbol ≠ "" then GeneVal.dcids ["bio/hg19_" ++ symbol, "bio/hg38_" ++ symbol]
  else GeneVal.str ""

/-- The three recognized drug sub-type labels (`drug_types` in
`get_compound_type`). -/
def drug_types : List String := ["Drug", "Drug Class", "Prodrug"]

/-- The normalized type tokens `get_compound_type` iterates over. -/
def compound_tokens (compound_types : String) : List String :=
  (pysplit ',' compound_types).map (fun t => pystrip (removeQuotes t))

/-- `get_compound_type` from pharm.py.  The Python builds a set holding
`'dcid:Drug'` for tokens among `drug_types` and `'dcid:ChemicalCompound'`
otherwise; a two-element set yields the fixed mixed string, otherwise the set's
single element is returned (the token list of a split is never empty). -/
def get_compound_type (compound_types : String) : String :=
  let toks := compound_tokens compound_types
  let hasDrug := toks.any (fun t => decide (t ∈ drug_types))
  let hasChem := toks.any (fun t => !(decide (t ∈ drug_types)))
  if hasDrug && hasChem then "dcs:ChemicalCompound,dcs:Drug"
  else if hasDrug then "dcid:Drug"
  else "dcid:ChemicalCompound"

/-- One loop iteration of `format_text_list`, acting on the state
`(formatted_str, joining)`. -/
def ftlStep (st : String × String) (prop_value : String) : String × String :=
  if countChar '"' prop_value = 0 ∧ st.2 ≠ "" then
    (st.1, st.2 ++ prop_value ++ ",")
  else if countChar '"' prop_value = 0 ∨ countChar '"' prop_value = 2 then
    (st.1 ++ "\"" ++ pystrip (removeQuotes prop_value) ++ "\",", st.2)
  else if countChar '"' prop_value = 1 ∧ st.2 ≠ "" then
    (st.1 ++ pystrip st.2 ++ removeQuotes prop_value ++ "\",", "")
  else if countChar '"' prop_value = 1 then
    (st.1, prop_value ++ ",")
  else
    st

/-- `format_text_list` from pharm.py. -/
def format_text_list (text_list : String) : String :=
  if text_list = "" then ""
  else pystripChar ',' (((pysplit ',' text_list).foldl ftlStep ("", "")).1)

/-- `format_semicolon_list` from pharm.py. -/
def format_semicolon_list (semi_list : String) : String :=
  if semi_list = "" then ""
  else pystripChar ','
    ((pysplit ';' semi_list).foldl (fun acc p => acc ++ "\"" ++ p ++ "\",") "")

/-- `format_bool` from pharm.py. -/
def format_bool (text true_val : String) : String :=
  if text = true_val then "True" else ""

/-- Loop of `get_enum`: a `None` result is the `KeyError` raised by
`enum_dict[key]` on an unknown code. -/
def enumFold (enum_dict : String → Option String) : List String → String → Option String
  | [], acc => some acc
  | k :: ks, acc =>
    match enum_dict k with
    | none => none
    | some v => enumFold enum_dict ks (acc ++ "dcid:" ++ v ++ ",")

/-- `get_enum` from pharm.py. -/
def get_enum (key_list : String) (enum_dict : String → Option String) : Option String :=
  if key_list = "" then some ""
  else (enumFold enum_dict (pysplit ',' key_list) "").map (fun s => pystripChar ',' s)

/-- One loop iteration of `get_xref_mcf`: the unrecognized-source branch logs
and continues, leaving the accumulator unchanged. -/
def xref_step (xref_to_label : String → Option String) (acc : String) (xref : String) : String :=
  match pysplit ':' (pystrip (removeQuotes xref)) with
  | [] => acc
  | p0 :: rest =>
    match xref_to_label p0 with
    | none => acc
    | some prop_label =>
      acc ++ prop_label ++ ": \"" ++ pystrip (joinSep ":" rest) ++ "\"\n"

/-- `get_xref_mcf` from pharm.py. -/
def get_xref_mcf (xrefs : String) (xref_to_label : String → Option String) : String :=
  if xrefs = "" then ""
  else (pysplit ',' xrefs).foldl (xref_step xref_to_label) ""

/-- A filled node block, modelled as its placeholder-to-value mapping. -/
abbrev Block := List (String × String)

/-- Modelled from the spec: `mcf_template_filler.Filler.fill` (Data Commons
util, not under src/).  Per the spec, the template filler substitutes only
supplied placeholders and fails if any placeholder declared required is absent
from the supplied mapping; the filled block is modelled as the mapping itself. -/
def fill (required_vars : List String) (template_dict : Block) : Except String Block :=
  if required_vars.all (fun r => (template_dict.lookup r).isSome) then
    Except.ok template_dict
  else Except.error "missing required template variable"

/-- Sequential per-element emission with fail-stop, modelling a Python loop
whose body may raise. -/
def emitAll {α β : Type} (f : α → Except String β) : List α → Except String (List β)
  | [] => Except.ok []
  | a :: t =>
    match f a with
    | Except.error e => Except.error e
    | Except.ok b => (emitAll f t).map (fun bs => b :: bs)

/-- A row of genes.tsv, restricted to the fields `get_gene_mcf` and
`write_gene_row` read (after `fillna('')`). -/
structure GeneRow where
  name : String
  symbol : String
  pharm_id : String
  ncbi : String
  hgnc : String
  ensembl : String
  alt_symbols : String
  xrefs : String
deriving DecidableEq

/-- A row of relationships.tsv, restricted to the fields `write_relation_row`
and `get_relation_mcf` read (after `fillna('')`). -/
structure RelRow where
  entity1_id : String
  entity2_id : String
  pmids : String
  pk : String
  pd : String
  association : String
  evidence : String
deriving DecidableEq

/-- `get_gene_mcf` from pharm.py: the filled template block paired with the
appended cross-reference mcf text. -/
def get_gene_mcf (xref_dict : String → Option String) (row : GeneRow)
    (gene_dcid : String) : Except String (Block × String) :=
  let ncbi := format_text_list row.ncbi
  let hgnc := format_text_list row.hgnc
  let ensembl := format_text_list row.ensembl
  let alt_symb := format_text_list row.alt_symbols
  match fill ["dcid"]
      (([("dcid", gene_dcid), ("name", row.name), ("symbol", row.symbol),
         ("pharm_id", row.pharm_id), ("ncbi_ids", ncbi), ("hgnc_ids", hgnc),
         ("ensembl_ids", ensembl),
         ("alt_symbols", alt_symb)]).filter (fun kv => kv.2 != "")) with
  | Except.error e => Except.error e
  | Except.ok mcf => Except.ok (mcf, get_xref_mcf row.xrefs xref_dict)

/-- `write_gene_row` from pharm.py: returns the updated pharmgkb-id-to-dcid
map (dictionary assignment is modelled by consing, `List.lookup` finding the
newest binding first) together with the node blocks written to the file. -/
def write_gene_row (xref_dict : String → Option String) (row : GeneRow)
    (pharm_to_dcid : List (String × GeneVal)) :
    Except String (List (String × GeneVal) × List (Block × String)) :=
  let gene_dcids := get_gene_dcids row.symbol
  let pharm_to_dcid' := (row.pharm_id, gene_dcids) :: pharm_to_dcid
  (emitAll (fun d => get_gene_mcf xref_dict row d) (iterGeneVal gene_dcids)).map
    (fun blocks => (pharm_to_dcid', blocks))

/-- `get_relation_mcf` from pharm.py. -/
def get_relation_mcf (assoc_dict evid_dict : String → Option String) (row : RelRow)
    (drug_dcid gene_dcid : String) : Except String Block :=
  let drug_ref := pyreplace "bio/" "" drug_dcid
  let gene_ref := pyreplace "bio/" "" gene_dcid
  let pubmed := format_semicolon_list row.pmids
  let pk_bool := format_bool row.pk "PK"
  let pd_bool := format_bool row.pd "PD"
  match get_enum row.association assoc_dict with
  | none => Except.error "KeyError: Association"
  | some assoc_enum =>
    match get_enum row.evidence evid_dict with
    | none => Except.error "KeyError: Evidence"
    | some evid_enum =>
      fill ["dcid", "gene_dcid", "drug_dcid"]
        (([("dcid", "bio/CGA_" ++ drug_ref ++ "_" ++ gene_ref),
           ("name", "CGA_" ++ drug_ref ++ "_" ++ gene_ref),
           ("gene_dcid", gene_dcid),
           ("drug_dcid", drug_dcid),
           ("pubmed_ids", pubmed),
           ("pk_bool", pk_bool),
           ("pd_bool", pd_bool),
           ("assoc_enums", assoc_enum),
           ("evid_enums", evid_enum)]).filter (fun kv => kv.2 != ""))

/-- `write_relation_row` from pharm.py: an endpoint missing from its map makes
the function return (after logging) with nothing written. -/
def write_relation_row (row : RelRow) (drug_is_first : Bool)
    (genes_pharm_to_dcid : List (String × GeneVal))
    (drugs_pharm_to_dcid : List (String × String))
    (assoc_dict evid_dict : String → Option String) : Except String (List Block) :=
  let drug_pharm := if drug_is_first then row.entity1_id else row.entity2_id
  let gene_pharm := if drug_is_first then row.entity2_id else row.entity1_id
  match drugs_pharm_to_dcid.lookup drug_pharm with
  | none => Except.ok []
  | some drug_dcid =>
    match genes_pharm_to_dcid.lookup gene_pharm with
    | none => Except.ok []
    | some gene_dcids =>
      emitAll (fun g => get_relation_mcf assoc_dict evid_dict row drug_dcid g)
        (iterGeneVal gene_dcids)

/-! ### Basic string and list facts -/

theorem strData_append (s t : String) : (s ++ t).data = s.data ++ t.data := rfl

theorem strMk_data (s : String) : String.mk s.data = s := rfl

theorem strAppend_assoc (a b c : String) : a ++ b ++ c = a ++ (b ++ c) :=
  congrArg String.mk (List.append_assoc a.data b.data c.data)

theorem strAppend_empty (s : String) : s ++ "" = s :=
  congrArg String.mk (List.append_nil s.data)

theorem strEmpty_append (s : String) : "" ++ s = s := rfl

theorem str_ne_empty_iff (s : String) : s ≠ "" ↔ s.data ≠ [] := by
  constructor
  · intro h hd
    exact h (congrArg String.mk hd)
  · intro h hd
    exact h (congrArg String.data hd)

theorem str_append_ne_empty_left (s t : String) (h : s ≠ "") : s ++ t ≠ "" := by
  rw [str_ne_empty_iff, strData_append]
  rw [str_ne_empty_iff] at h
  intro hc
  exact h (List.append_eq_nil.mp hc).1

theorem str_append_ne_empty_right (s t : String) (h : t ≠ "") : s ++ t ≠ "" := by
  rw [str_ne_empty_iff, strData_append]
  rw [str_ne_empty_iff] at h
  intro hc
  exact h (List.append_eq_nil.mp hc).2

theorem splitChar_ne_nil (sep : Char) (l : List Char) : splitChar sep l ≠ [] := by
  cases l with
  | nil => simp [splitChar]
  | cons c cs =>
    simp only [splitChar]
    split
    · simp
    · split <;> simp

theorem pysplit_ne_nil (sep : Char) (s : String) : pysplit sep s ≠ [] := by
  simp [pysplit, splitChar_ne_nil]

/-! ### Stripping -/

theorem dropWhile_cons_false (p : Char → Bool) (a : Char) (l : List Char)
    (h : p a = false) : List.dropWhile p (a :: l) = a :: l := by
  simp [List.dropWhile, h]

theorem dropWhile_cons_true (p : Char → Bool) (a : Char) (l : List Char)
    (h : p a = true) : List.dropWhile p (a :: l) = List.dropWhile p l := by
  simp [List.dropWhile, h]

theorem stripWith_sandwich (p : Char → Bool) (a : Char) (m : List Char) (c : Char)
    (ha : p a = false) (hc : p c = true)
    (hlast : ∀ x, (a :: m).getLast? = some x → p x = false) :
    stripWith p ((a :: m) ++ [c]) = a :: m := by
  unfold stripWith
  rw [List.cons_append, dropWhile_cons_false p a (m ++ [c]) ha]
  rw [show (a :: (m ++ [c])).reverse = c :: (m.reverse ++ [a]) by simp]
  rw [dropWhile_cons_true p c _ hc]
  cases hm : m.reverse with
  | nil =>
    have hm' : m = [] := by simpa using congrArg List.reverse hm
    subst hm'
    show (List.dropWhile p [a]).reverse = [a]
    rw [dropWhile_cons_false p a [] ha]
    simp
  | cons b r =>
    have hmeq : m = r.reverse ++ [b] := by simpa using congrArg List.reverse hm
    have hb : p b = false := by
      apply hlast
      rw [hmeq]
      exact List.getLast?_concat (a :: r.reverse)
    rw [List.cons_append, dropWhile_cons_false p b (r ++ [a]) hb]
    rw [show (b :: (r ++ [a])).reverse = a :: (r.reverse ++ [b]) by simp]
    rw [hmeq]

/-! ### Replacement -/

theorem isPrefixOf_append_self (l t : List Char) : l.isPrefixOf (l ++ t) = true := by
  induction l with
  | nil => simp [List.isPrefixOf]
  | cons c cs ih => simp [List.isPrefixOf, ih]

theorem replaceFrom_of_not_hasSub (p0 : Char) (ps rep l : List Char)
    (h : hasSub (p0 :: ps) l = false) : replaceFrom p0 ps rep l = l := by
  induction l with
  | nil => simp [replaceFrom]
  | cons c cs ih =>
    rw [hasSub] at h
    rw [Bool.or_eq_false_iff] at h
    rw [replaceFrom, if_neg (by simp [h.1]), ih h.2]

theorem replaceFrom_append (p0 : Char) (ps rep t : List Char)
    (h : hasSub (p0 :: ps) t = false) :
    replaceFrom p0 ps rep ((p0 :: ps) ++ t) = rep ++ t := by
  rw [List.cons_append, replaceFrom,
    if_pos (by rw [← List.cons_append]; exact isPrefixOf_append_self (p0 :: ps) t)]
  rw [show List.drop ps.length (ps ++ t) = t from List.drop_left ps t]
  rw [replaceFrom_of_not_hasSub p0 ps rep t h]

theorem pyreplace_bio (x : String) (h : hasSub "bio/".data x.data = false) :
    pyreplace "bio/" "" ("bio/" ++ x) = x := by
  show String.mk (replaceFrom 'b' ['i', 'o', '/'] "".data ("bio/" ++ x).data) = x
  rw [show ("bio/" ++ x).data = ('b' :: ['i', 'o', '/']) ++ x.data from rfl]
  rw [replaceFrom_append 'b' ['i', 'o', '/'] "".data x.data h]
  rfl

/-! ### Joining comma-separated pieces -/

theorem getLast?_append_right (l1 l2 : List Char) (h : l2 ≠ []) :
    (l1 ++ l2).getLast? = l2.getLast? := by
  rw [← List.head?_reverse, ← List.head?_reverse, List.reverse_append]
  cases hr : l2.reverse with
  | nil => exact absurd (by simpa using congrArg List.reverse hr) h
  | cons c t => simp

theorem strConcat_map_comma (ps : List String) (h : ps ≠ []) :
    (strConcat (ps.map (fun p => p ++ ","))).data =
      (joinSep "," ps).data ++ [','] := by
  induction ps with
  | nil => exact absurd rfl h
  | cons p ps ih =>
    cases ps with
    | nil =>
      simp [strConcat, joinSep, strData_append, strAppend_empty]
    | cons q t =>
      rw [List.map_cons, strConcat, joinSep, strData_append, strData_append,
        strData_append, ih (by simp)]
      simp

theorem joinSep_dcid_head (w : String) (ps : List String) :
    ∃ r, (joinSep "," (("dcid:" ++ w) :: ps)).data = 'd' :: r := by
  cases ps with
  | nil => exact ⟨'c' :: 'i' :: 'd' :: ':' :: w.data, rfl⟩
  | cons q t =>
    exact ⟨'c' :: 'i' :: 'd' :: ':' ::
      (w.data ++ [','] ++ (joinSep "," (q :: t)).data), by simp [joinSep, strData_append]⟩

theorem dcid_piece_last (w : String) (h : notTrailingComma w) :
    ("dcid:" ++ w).data.getLast? ≠ some ',' := by
  rw [strData_append]
  cases hw : w.data with
  | nil => simp
  | cons c t =>
    rw [getLast?_append_right _ _ (by simp)]
    rw [notTrailingComma, hw] at h
    exact h

theorem joinSep_dcid_last (vv : String → String) (ks : List String) (h : ks ≠ [])
    (hv : ∀ k ∈ ks, notTrailingComma (vv k)) :
    (joinSep "," (ks.map (fun k => "dcid:" ++ vv k))).data.getLast? ≠ some ',' := by
  induction ks with
  | nil => exact absurd rfl h
  | cons k ks ih =>
    cases ks with
    | nil =>
      simp only [List.map_cons, List.map_nil, joinSep]
      exact dcid_piece_last (vv k) (hv k (by simp))
    | cons q t =>
      rw [List.map_cons, List.map_cons, joinSep]
      obtain ⟨r, hr⟩ := joinSep_dcid_head (vv q) (t.map (fun k => "dcid:" ++ vv k))
      rw [strData_append, strData_append]
      rw [List.append_assoc, getLast?_append_right _ _ (by rw [hr]; simp)]
      rw [getLast?_append_right _ _ (by rw [hr]; simp)]
      have := ih (by simp) (fun x hx => hv x (List.mem_cons_of_mem k hx))
      rw [List.map_cons] at this
      exact this

/-! ### The enum fold -/

theorem enumFold_none (d : String → Option String) (ks : List String) (acc : String)
    (h : ∃ k ∈ ks, d k = none) : enumFold d ks acc = none := by
  induction ks generalizing acc with
  | nil => simp at h
  | cons k ks ih =>
    rw [enumFold]
    obtain ⟨k', hk', hd⟩ := h
    rcases List.mem_cons.mp hk' with heq | hmem
    · subst heq
      rw [hd]
    · cases hdk : d k with
      | none => rfl
      | some v => exact ih _ ⟨k', hmem, hd⟩

theorem enumFold_some (d : String → Option String) (vv : String → String)
    (ks : List String) (h : ∀ k ∈ ks, d k = some (vv k)) (acc : String) :
    enumFold d ks acc =
      some (acc ++ strConcat (ks.map (fun k => "dcid:" ++ vv k ++ ","))) := by
  induction ks generalizing acc with
  | nil => simp [enumFold, strConcat, strAppend_empty]
  | cons k ks ih =>
    rw [enumFold, h k (by simp)]
    show enumFold d ks (acc ++ "dcid:" ++ vv k ++ ",") = _
    rw [ih (fun x hx => h x (List.mem_cons_of_mem k hx))]
    rw [List.map_cons, strConcat]
    simp [strAppend_assoc]

theorem strip_enum_concat (vv : String → String) (ks : List String) (h : ks ≠ [])
    (hv : ∀ k ∈ ks, notTrailingComma (vv k)) :
    pystripChar ',' (strConcat (ks.map (fun k => "dcid:" ++ vv k ++ ","))) =
      joinSep "," (ks.map (fun k => "dcid:" ++ vv k)) := by
  have hmap : ks.map (fun k => "dcid:" ++ vv k ++ ",") =
      (ks.map (fun k => "dcid:" ++ vv k)).map (fun p => p ++ ",") := by
    rw [List.map_map]
    rfl
  rw [hmap]
  unfold pystripChar
  rw [strConcat_map_comma _ (by simpa using h)]
  cases ks with
  | nil => exact absurd rfl h
  | cons k0 kt =>
    rw [List.map_cons]
    obtain ⟨r, hr⟩ := joinSep_dcid_head (vv k0) (kt.map (fun k => "dcid:" ++ vv k))
    have hne := joinSep_dcid_last vv (k0 :: kt) (by simp) hv
    rw [List.map_cons] at hne
    have hlast : ∀ x, ('d' :: r).getLast? = some x → ((x == ',') : Bool) = false := by
      intro x hx
      rw [← hr] at hx
      rw [hx] at hne
      simp at hne
      exact beq_eq_false_iff_ne.mpr hne
    rw [hr, stripWith_sandwich (fun x => x == ',') 'd' r ',' (by decide) (by decide) hlast,
      ← hr]

/-! ### The xref fold and sequential emission -/

theorem xref_step_acc (d : String → Option String) (acc x : String) :
    xref_step d acc x = acc ++ xref_step d "" x := by
  cases hp : pysplit ':' (pystrip (removeQuotes x)) with
  | nil => simp [xref_step, hp, strAppend_empty]
  | cons p0 rest =>
    cases hd : d p0 with
    | none => simp [xref_step, hp, hd, strAppend_empty]
    | some lbl => simp [xref_step, hp, hd, strAppend_assoc, strEmpty_append]

theorem xref_foldl (d : String → Option String) (l : List String) (acc : String) :
    l.foldl (xref_step d) acc = acc ++ strConcat (l.map (fun x => xref_step d "" x)) := by
  induction l generalizing acc with
  | nil => simp [strConcat, strAppend_empty]
  | cons x t ih =>
    rw [List.foldl_cons, ih, List.map_cons, strConcat, xref_step_acc]
    simp [strAppend_assoc]

theorem emitAll_ok {α β : Type} (f : α → Except String β) (P : α → β → Prop)
    (l : List α) (h : ∀ a ∈ l, ∃ b, f a = Except.ok b ∧ P a b) :
    ∃ bs, emitAll f l = Except.ok bs ∧ bs.length = l.length ∧
      ∀ pr ∈ bs.zip l, P pr.2 pr.1 := by
  induction l with
  | nil => exact ⟨[], rfl, rfl, by simp⟩
  | cons a t ih =>
    obtain ⟨b, hb, hP⟩ := h a (by simp)
    obtain ⟨bs, hbs, hlen, hall⟩ := ih (fun x hx => h x (List.mem_cons_of_mem a hx))
    refine ⟨b :: bs, ?_, by simp [hlen], ?_⟩
    · rw [emitAll, hb, hbs]
      rfl
    · intro pr hpr
      rw [List.zip_cons_cons] at hpr
      rcases List.mem_cons.mp hpr with heq | hmem
      · subst heq
        exact hP
      · exact hall pr hmem

/-! ### Claims -/

/-- C1: for candidate identifiers chembl1 (from the native PharmGKB id),
chembl2 (from the PubChem Compound id) and chembl3 (from the InChI key),
`merge_chembls` returns the first candidate in that order that is non-null and
non-empty, regardless of the values of the lower-priority candidates; when all
three are empty or null it returns `None`, and the record's output identifier
from `get_drug_dcid` (after `fillna('')`) is the fabricated fallback
`'bio/' + PharmGKB Accession Id`. -/
theorem merge_chembls_priority (c1 c2 c3 : Option String) (pharm_id : String) :
    (truthy c1 = true → merge_chembls c1 c2 c3 = c1) ∧
    (truthy c1 = false → truthy c2 = true → merge_chembls c1 c2 c3 = c2) ∧
    (truthy c1 = false → truthy c2 = false → truthy c3 = true →
      merge_chembls c1 c2 c3 = c3) ∧
    (truthy c1 = false → truthy c2 = false → truthy c3 = false →
      merge_chembls c1 c2 c3 = none ∧
      get_drug_dcid (fillna (merge_chembls c1 c2 c3)) pharm_id = "bio/" ++ pharm_id) := by
  refine ⟨?_, ?_, ?_, ?_⟩
  · intro h1
    simp [merge_chembls, h1]
  · intro h1 h2
    simp [merge_chembls, h1, h2]
  · intro h1 h2 h3
    simp [merge_chembls, h1, h2, h3]
  · intro h1 h2 h3
    have hm : merge_chembls c1 c2 c3 = none := by simp [merge_chembls, h1, h2, h3]
    refine ⟨hm, ?_⟩
    rw [hm]
    rfl

theorem merge_chembls_priority_witness :
    merge_chembls (some "CHEMBL25") none (some "Z") = some "CHEMBL25" :=
  (merge_chembls_priority (some "CHEMBL25") none (some "Z") "PA1").1 (by decide)

/-- C2: `format_text_list` re-tokenizes its comma-separated input respecting
double-quote boundaries: `test1,"Foo, Bar","test2"` formats to
`"test1","Foo, Bar","test2"`, and the already-formatted `"a,b","c"` formats to
exactly the two quoted tokens `"a,b"` and `"c"` joined by a comma, not three. -/
theorem format_text_list_quote_tokens :
    format_text_list "test1,\"Foo, Bar\",\"test2\"" = "\"test1\",\"Foo, Bar\",\"test2\"" ∧
    format_text_list "\"a,b\",\"c\"" = "\"a,b\",\"c\"" ∧
    "\"a,b\",\"c\"" = joinSep "," ["\"a,b\"", "\"c\""] :=
  ⟨by decide, by decide, by decide⟩

/-- C8: `format_text_list` is total on all string inputs (it is a Lean
function into `String`, never an exception): the empty input yields the empty
output, a token with an unexpected quote count (3 or more) leaves the loop
state unchanged (logged and dropped), and the remaining tokens are still
formatted. -/
theorem format_text_list_total_spec :
    format_text_list "" = "" ∧
    (∀ st prop_value, 3 ≤ countChar '"' prop_value → ftlStep st prop_value = st) ∧
    format_text_list "a,\"\"\"b,c" = "\"a\",\"c\"" := by
  refine ⟨rfl, ?_, by decide⟩
  intro st t h
  have h0 : countChar '"' t ≠ 0 := by omega
  have h1 : countChar '"' t ≠ 1 := by omega
  have h2 : countChar '"' t ≠ 2 := by omega
  simp [ftlStep, h0, h1, h2]

theorem format_text_list_total_spec_witness :
    ftlStep ("\"x\",", "") "\"\"\"" = ("\"x\",", "") :=
  format_text_list_total_spec.2.1 ("\"x\",", "") "\"\"\"" (by decide)

/-- C5: for a comma-separated compound-type list, `get_compound_type` yields
the single Drug marker when every normalized token is a recognized drug
sub-type, the single ChemicalCompound marker when no token is, and the fixed
de-duplicated, order-independent combined marker string when both kinds occur. -/
theorem get_compound_type_markers (compound_types : String) :
    ((∀ t ∈ compound_tokens compound_types, t ∈ drug_types) →
      get_compound_type compound_types = "dcid:Drug") ∧
    ((∀ t ∈ compound_tokens compound_types, t ∉ drug_types) →
      get_compound_type compound_types = "dcid:ChemicalCompound") ∧
    ((∃ t ∈ compound_tokens compound_types, t ∈ drug_types) →
      (∃ t ∈ compound_tokens compound_types, t ∉ drug_types) →
      get_compound_type compound_types = "dcs:ChemicalCompound,dcs:Drug") := by
  have hne : compound_tokens compound_types ≠ [] := by
    intro hc
    exact pysplit_ne_nil ',' compound_types (List.map_eq_nil_iff.mp hc)
  refine ⟨?_, ?_, ?_⟩
  · intro h
    obtain ⟨t0, ht0⟩ := List.exists_mem_of_ne_nil _ hne
    have hd : (compound_tokens compound_types).any
        (fun t => decide (t ∈ drug_types)) = true := by
      rw [List.any_eq_true]
      exact ⟨t0, ht0, by simp [h t0 ht0]⟩
    have hc : (compound_tokens compound_types).any
        (fun t => !(decide (t ∈ drug_types))) = false := by
      rw [List.any_eq_false]
      intro x hx
      simp [h x hx]
    simp [get_compound_type, hd, hc]
  · intro h
    have hd : (compound_tokens compound_types).any
        (fun t => decide (t ∈ drug_types)) = false := by
      rw [List.any_eq_false]
      intro x hx
      simp [h x hx]
    simp [get_compound_type, hd]
  · intro h1 h2
    obtain ⟨t1, ht1, hm1⟩ := h1
    obtain ⟨t2, ht2, hm2⟩ := h2
    have hd : (compound_tokens compound_types).any
        (fun t => decide (t ∈ drug_types)) = true := by
      rw [List.any_eq_true]
      exact ⟨t1, ht1, by simp [hm1]⟩
    have hc : (compound_tokens compound_types).any
        (fun t => !(decide (t ∈ drug_types))) = true := by
      rw [List.any_eq_true]
      exact ⟨t2, ht2, by simp [hm2]⟩
    simp [get_compound_type, hd, hc]

theorem get_compound_type_markers_witness :
    get_compound_type "Drug,Metabolite" = "dcs:ChemicalCompound,dcs:Drug" :=
  (get_compound_type_markers "Drug,Metabolite").2.2 (by decide) (by decide)

/-- C6: for a non-empty comma-separated code list, `get_enum` fails with a
lookup error (the `KeyError` of `enum_dict[key]`, modelled as `none`) when any
code is absent from the static mapping — it does not silently drop the unknown
code — and when every code is present it returns the comma-separated list of
`dcid:`-prefixed mapped identifiers, one per input code in order (stated for
mapped values that do not end in a comma, as the config enum dcids do not; the
trailing `strip(',')` would otherwise also eat the value's own commas). -/
theorem get_enum_strict (key_list : String) (d : String → Option String)
    (hne : key_list ≠ "") :
    ((∃ k ∈ pysplit ',' key_list, d k = none) → get_enum key_list d = none) ∧
    (∀ vv : String → String,
      (∀ k ∈ pysplit ',' key_list, d k = some (vv k)) →
      (∀ k ∈ pysplit ',' key_list, notTrailingComma (vv k)) →
      get_enum key_list d =
        some (joinSep "," ((pysplit ',' key_list).map (fun k => "dcid:" ++ vv k)))) := by
  constructor
  · intro h
    rw [get_enum, if_neg hne, enumFold_none d _ "" h]
    rfl
  · intro vv hall hv
    rw [get_enum, if_neg hne, enumFold_some d vv _ hall ""]
    simp only [Option.map_some']
    rw [strEmpty_append, strip_enum_concat vv _ (pysplit_ne_nil ',' key_list) hv]

instance (s : String) : Decidable (notTrailingComma s) :=
  inferInstanceAs (Decidable (s.data.getLast? ≠ some ','))

theorem get_enum_strict_witness :
    get_enum "A,B"
      (fun k => if k = "A" then some "X" else if k = "B" then some "Y" else none) =
      some "dcid:X,dcid:Y" :=
  ((get_enum_strict "A,B"
      (fun k => if k = "A" then some "X" else if k = "B" then some "Y" else none)
      (by decide)).2 (fun k => if k = "A" then "X" else "Y")
      (by decide) (by decide)).trans (by decide)

/-- C7 counterexample: for the pair `Src: v` the claim as stated predicts the
value `" v"` (everything after the first colon, unmodified), i.e. the output
line `lbl: " v"`; the code strips surrounding whitespace from the value and
emits `lbl: "v"` instead. -/
theorem get_xref_mcf_value_cex :
    get_xref_mcf "Src: v" (fun s => if s = "Src" then some "lbl" else none) ≠
      "lbl: \" v\"\n" := by decide

/-- C7 (amended): `get_xref_mcf` is the concatenation of one contribution per
comma-separated pair; a pair whose source name (its first colon-separated
component, after quote removal and whitespace stripping) is absent from the
source-to-label mapping contributes nothing — logged and skipped without
raising, the remaining pairs still translated — and a recognized pair
contributes the line `label: "value"` where the value is everything after the
first colon rejoined on ':' (values containing colons are preserved) and then
stripped of surrounding whitespace. -/
theorem get_xref_mcf_spec (d : String → Option String) (xrefs : String)
    (h : xrefs ≠ "") :
    get_xref_mcf xrefs d =
      strConcat ((pysplit ',' xrefs).map (fun x => xref_step d "" x)) ∧
    (∀ x p0 rest, pysplit ':' (pystrip (removeQuotes x)) = p0 :: rest →
      (d p0 = none → xref_step d "" x = "") ∧
      (∀ lbl, d p0 = some lbl →
        xref_step d "" x = lbl ++ ": \"" ++ pystrip (joinSep ":" rest) ++ "\"\n")) := by
  constructor
  · rw [get_xref_mcf, if_neg h, xref_foldl, strEmpty_append]
  · intro x p0 rest hp
    constructor
    · intro hd
      simp [xref_step, hp, hd]
    · intro lbl hd
      simp [xref_step, hp, hd, strEmpty_append]

theorem get_xref_mcf_spec_witness :
    get_xref_mcf "RefSeq:NM_001,Bogus:x,HGNC:HGNC:44"
      (fun s => if s = "RefSeq" then some "refSeqID"
                else if s = "HGNC" then some "hgncID" else none) =
      "refSeqID: \"NM_001\"\nhgncID: \"HGNC:44\"\n" :=
  ((get_xref_mcf_spec
      (fun s => if s = "RefSeq" then some "refSeqID"
                else if s = "HGNC" then some "hgncID" else none)
      "RefSeq:NM_001,Bogus:x,HGNC:HGNC:44" (by decide)).1).trans (by decide)

/-- C3: if either endpoint's PharmGKB id is absent from its identifier map,
`write_relation_row` writes nothing for that row and does not raise (it
returns normally with an empty list of written blocks), and relationship
blocks can be emitted only when both endpoints resolve. -/
theorem write_relation_row_skips_unresolved (row : RelRow) (drug_is_first : Bool)
    (gm : List (String × GeneVal)) (dm : List (String × String))
    (ad ed : String → Option String) :
    (dm.lookup (if drug_is_first then row.entity1_id else row.entity2_id) = none →
      write_relation_row row drug_is_first gm dm ad ed = Except.ok []) ∧
    (gm.lookup (if drug_is_first then row.entity2_id else row.entity1_id) = none →
      write_relation_row row drug_is_first gm dm ad ed = Except.ok []) ∧
    (∀ blocks, write_relation_row row drug_is_first gm dm ad ed = Except.ok blocks →
      blocks ≠ [] →
      (dm.lookup (if drug_is_first then row.entity1_id else row.entity2_id)).isSome = true ∧
      (gm.lookup (if drug_is_first then row.entity2_id else row.entity1_id)).isSome = true) := by
  refine ⟨?_, ?_, ?_⟩
  · intro h
    simp only [write_relation_row, h]
  · intro h
    simp only [write_relation_row, h]
    cases dm.lookup (if drug_is_first then row.entity1_id else row.entity2_id) <;> rfl
  · intro blocks hb hne
    cases hd : dm.lookup (if drug_is_first then row.entity1_id else row.entity2_id) with
    | none =>
      simp only [write_relation_row, hd] at hb
      exact absurd (by simpa using hb.symm) hne
    | some dd =>
      cases hg : gm.lookup (if drug_is_first then row.entity2_id else row.entity1_id) with
      | none =>
        simp only [write_relation_row, hd, hg] at hb
        exact absurd (by simpa using hb.symm) hne
      | some gv =>
        exact ⟨rfl, rfl⟩

theorem write_relation_row_skips_unresolved_witness :
    write_relation_row ⟨"PA1", "G1", "", "", "", "", ""⟩ true []
      [("PA1", "bio/CHEMBL1")] (fun _ => none) (fun _ => none) = Except.ok [] :=
  (write_relation_row_skips_unresolved ⟨"PA1", "G1", "", "", "", "", ""⟩ true []
    [("PA1", "bio/CHEMBL1")] (fun _ => none) (fun _ => none)).2.1 (by decide)

/-- C9: a gene row with an empty symbol writes zero node blocks yet still
inserts an entry into the gene identifier map binding its PharmGKB Accession
Id to the Python string `''` (`get_gene_dcids` returns `''` rather than a
list); a later relationship row referencing that id passes the map-membership
check but emits zero relationship blocks. -/
theorem write_gene_row_empty_symbol_map (d : String → Option String) (row : GeneRow)
    (m : List (String × GeneVal)) (h : row.symbol = "") :
    write_gene_row d row m = Except.ok ((row.pharm_id, GeneVal.str "") :: m, []) ∧
    (∀ (rrow : RelRow) (drug_is_first : Bool) (gm : List (String × GeneVal))
       (dm : List (String × String)) (ad ed : String → Option String) (dd : String),
      gm.lookup (if drug_is_first then rrow.entity2_id else rrow.entity1_id) =
          some (GeneVal.str "") →
      dm.lookup (if drug_is_first then rrow.entity1_id else rrow.entity2_id) = some dd →
      (gm.lookup (if drug_is_first then rrow.entity2_id else rrow.entity1_id)).isSome
          = true ∧
      write_relation_row rrow drug_is_first gm dm ad ed = Except.ok []) := by
  constructor
  · simp [write_gene_row, get_gene_dcids, h, iterGeneVal, emitAll, Except.map]
  · intro rrow dif gm dm ad ed dd hg hd
    refine ⟨by rw [hg]; rfl, ?_⟩
    simp only [write_relation_row, hd, hg]
    rfl

theorem write_gene_row_empty_symbol_map_witness :
    write_gene_row (fun _ => none) ⟨"", "", "PA0", "", "", "", "", ""⟩ [] =
      Except.ok ([("PA0", GeneVal.str "")], []) :=
  (write_gene_row_empty_symbol_map (fun _ => none)
    ⟨"", "", "PA0", "", "", "", "", ""⟩ [] (by decide)).1

/-- C4 counterexample: the claim fails on a gene source row whose symbol is
empty: for such a row `write_gene_row` writes zero node blocks, not two. -/
theorem write_gene_row_zero_blocks_cex :
    ¬ (∀ (row : GeneRow) (d : String → Option String) (m : List (String × GeneVal)),
        ∃ mm blocks, write_gene_row d row m = Except.ok (mm, blocks) ∧
          blocks.length = 2) := by
  intro hall
  obtain ⟨mm, blocks, heq, hlen⟩ :=
    hall ⟨"", "", "PA0", "", "", "", "", ""⟩ (fun _ => none) []
  have hw : write_gene_row (fun _ => none)
      (⟨"", "", "PA0", "", "", "", "", ""⟩ : GeneRow) [] =
      Except.ok ([("PA0", GeneVal.str "")], []) := rfl
  rw [hw] at heq
  have hb : blocks = [] := by
    simp only [Except.ok.injEq, Prod.mk.injEq] at heq
    exact heq.2.symm
  rw [hb] at hlen
  simp at hlen

/-- C4 (amended): for every gene source row with a non-empty symbol,
`write_gene_row` emits exactly two node blocks, one per genome-build-specific
identifier built deterministically from the row's symbol as
`'bio/hg19_' + symbol` and `'bio/hg38_' + symbol`, and the two blocks agree on
all non-identifier field data (the same template fields apart from `dcid`, and
the same appended cross-reference text). -/
theorem write_gene_row_two_nodes (d : String → Option String) (row : GeneRow)
    (m : List (String × GeneVal)) (h : row.symbol ≠ "") :
    ∃ b1 b2 : Block × String,
      write_gene_row d row m =
        Except.ok ((row.pharm_id,
            GeneVal.dcids ["bio/hg19_" ++ row.symbol, "bio/hg38_" ++ row.symbol]) :: m,
          [b1, b2]) ∧
      b1.1.lookup "dcid" = some ("bio/hg19_" ++ row.symbol) ∧
      b2.1.lookup "dcid" = some ("bio/hg38_" ++ row.symbol) ∧
      b1.1.filter (fun kv => kv.1 != "dcid") = b2.1.filter (fun kv => kv.1 != "dcid") ∧
      b1.2 = b2.2 := by
  have hmcf : ∀ dcid : String, dcid ≠ "" →
      get_gene_mcf d row dcid =
        Except.ok ((("dcid", dcid) ::
          List.filter (fun kv => kv.2 != "")
            [("name", row.name), ("symbol", row.symbol), ("pharm_id", row.pharm_id),
             ("ncbi_ids", format_text_list row.ncbi),
             ("hgnc_ids", format_text_list row.hgnc),
             ("ensembl_ids", format_text_list row.ensembl),
             ("alt_symbols", format_text_list row.alt_symbols)]),
          get_xref_mcf row.xrefs d) := by
    intro dcid hdc
    have hb : (dcid != "") = true := bne_iff_ne.mpr hdc
    simp [get_gene_mcf, fill, List.filter_cons, hb, List.lookup]
  have h19 : ("bio/hg19_" ++ row.symbol) ≠ "" :=
    str_append_ne_empty_left _ _ (by decide)
  have h38 : ("bio/hg38_" ++ row.symbol) ≠ "" :=
    str_append_ne_empty_left _ _ (by decide)
  refine ⟨(("dcid", "bio/hg19_" ++ row.symbol) ::
      List.filter (fun kv => kv.2 != "")
        [("name", row.name), ("symbol", row.symbol), ("pharm_id", row.pharm_id),
         ("ncbi_ids", format_text_list row.ncbi),
         ("hgnc_ids", format_text_list row.hgnc),
         ("ensembl_ids", format_text_list row.ensembl),
         ("alt_symbols", format_text_list row.alt_symbols)],
      get_xref_mcf row.xrefs d),
    (("dcid", "bio/hg38_" ++ row.symbol) ::
      List.filter (fun kv => kv.2 != "")
        [("name", row.name), ("symbol", row.symbol), ("pharm_id", row.pharm_id),
         ("ncbi_ids", format_text_list row.ncbi),
         ("hgnc_ids", format_text_list row.hgnc),
         ("ensembl_ids", format_text_list row.ensembl),
         ("alt_symbols", format_text_list row.alt_symbols)],
      get_xref_mcf row.xrefs d), ?_, ?_, ?_, ?_, ?_⟩
  · simp only [write_gene_row, get_gene_dcids, if_pos h, iterGeneVal]
    rw [emitAll, hmcf _ h19, emitAll, hmcf _ h38, emitAll]
    rfl
  · simp [List.lookup]
  · simp [List.lookup]
  · simp [List.filter_cons]
  · rfl

theorem write_gene_row_two_nodes_witness :
    ∃ b1 b2 : Block × String,
      write_gene_row (fun _ => none) ⟨"", "ABC", "PA1", "", "", "", "", ""⟩ [] =
        Except.ok ([("PA1", GeneVal.dcids ["bio/hg19_ABC", "bio/hg38_ABC"])],
          [b1, b2]) ∧
      b1.1.lookup "dcid" = some "bio/hg19_ABC" ∧
      b2.1.lookup "dcid" = some "bio/hg38_ABC" ∧
      b1.1.filter (fun kv => kv.1 != "dcid") = b2.1.filter (fun kv => kv.1 != "dcid") ∧
      b1.2 = b2.2 :=
  write_gene_row_two_nodes (fun _ => none) ⟨"", "ABC", "PA1", "", "", "", "", ""⟩ []
    (by decide)

theorem get_relation_mcf_ok (ad ed : String → Option String) (row : RelRow)
    (dd g d0 g0 : String)
    (hdd : dd = "bio/" ++ d0) (hnd : hasSub "bio/".data d0.data = false)
    (hg : g = "bio/" ++ g0) (hng : hasSub "bio/".data g0.data = false)
    (ha : (get_enum row.association ad).isSome = true)
    (he : (get_enum row.evidence ed).isSome = true) :
    ∃ b : Block, get_relation_mcf ad ed row dd g = Except.ok b ∧
      b.lookup "dcid" = some ("bio/CGA_" ++ d0 ++ "_" ++ g0) := by
  obtain ⟨av, hav⟩ := Option.isSome_iff_exists.mp ha
  obtain ⟨ev, hev⟩ := Option.isSome_iff_exists.mp he
  have hre1 : pyreplace "bio/" "" dd = d0 := by
    rw [hdd]
    exact pyreplace_bio d0 hnd
  have hre2 : pyreplace "bio/" "" g = g0 := by
    rw [hg]
    exact pyreplace_bio g0 hng
  have hid : ("bio/CGA_" ++ d0 ++ "_" ++ g0) ≠ "" :=
    str_append_ne_empty_left _ _ (str_append_ne_empty_right _ _ (by decide))
  have hnm : ("CGA_" ++ d0 ++ "_" ++ g0) ≠ "" :=
    str_append_ne_empty_left _ _ (str_append_ne_empty_right _ _ (by decide))
  have hgne : g ≠ "" := by
    rw [hg]
    exact str_append_ne_empty_left _ _ (by decide)
  have hdne : dd ≠ "" := by
    rw [hdd]
    exact str_append_ne_empty_left _ _ (by decide)
  have hidb : (("bio/CGA_" ++ d0 ++ "_" ++ g0) != "") = true := bne_iff_ne.mpr hid
  have hnmb : (("CGA_" ++ d0 ++ "_" ++ g0) != "") = true := bne_iff_ne.mpr hnm
  have hgb : (g != "") = true := bne_iff_ne.mpr hgne
  have hdb : (dd != "") = true := bne_iff_ne.mpr hdne
  refine ⟨("dcid", "bio/CGA_" ++ d0 ++ "_" ++ g0) ::
      ("name", "CGA_" ++ d0 ++ "_" ++ g0) ::
      ("gene_dcid", g) :: ("drug_dcid", dd) ::
      List.filter (fun kv => kv.2 != "")
        [("pubmed_ids", format_semicolon_list row.pmids),
         ("pk_bool", format_bool row.pk "PK"),
         ("pd_bool", format_bool row.pd "PD"),
         ("assoc_enums", av), ("evid_enums", ev)], ?_, ?_⟩
  · simp [get_relation_mcf, hav, hev, hre1, hre2, fill, List.filter_cons,
      hidb, hnmb, hgb, hdb, List.lookup]
  · simp [List.lookup]

/-- C10: for a relationship row whose two endpoints both resolve — the drug to
a stored dcid `'bio/' + drug_ref` and the gene to a stored list of dcids each
of shape `'bio/' + gene_ref` — and whose enum code fields translate,
`write_relation_row` writes exactly one relationship block per stored gene
dcid, each block's identifier being `'bio/CGA_'` + the drug dcid with its
`'bio/'` prefix removed + `'_'` + that gene dcid with its `'bio/'` prefix
removed. -/
theorem write_relation_row_per_gene_dcid (row : RelRow) (drug_is_first : Bool)
    (gm : List (String × GeneVal)) (dm : List (String × String))
    (ad ed : String → Option String) (dd d0 : String) (gds : List String)
    (hd : dm.lookup (if drug_is_first then row.entity1_id else row.entity2_id) = some dd)
    (hg : gm.lookup (if drug_is_first then row.entity2_id else row.entity1_id) =
      some (GeneVal.dcids gds))
    (hdd : dd = "bio/" ++ d0) (hnd : hasSub "bio/".data d0.data = false)
    (hge : ∀ g ∈ gds, ∃ g0, g = "bio/" ++ g0 ∧ hasSub "bio/".data g0.data = false)
    (ha : (get_enum row.association ad).isSome = true)
    (he : (get_enum row.evidence ed).isSome = true) :
    ∃ blocks, write_relation_row row drug_is_first gm dm ad ed = Except.ok blocks ∧
      blocks.length = gds.length ∧
      ∀ pr ∈ blocks.zip gds, ∀ g0, pr.2 = "bio/" ++ g0 →
        hasSub "bio/".data g0.data = false →
        pr.1.lookup "dcid" = some ("bio/CGA_" ++ d0 ++ "_" ++ g0) := by
  have hstep : ∀ g ∈ gds, ∃ b, get_relation_mcf ad ed row dd g = Except.ok b ∧
      b.lookup "dcid" = some ("bio/CGA_" ++ d0 ++ "_" ++ pyreplace "bio/" "" g) := by
    intro g hgm
    obtain ⟨g0, hg0, hn0⟩ := hge g hgm
    obtain ⟨b, hb, hl⟩ := get_relation_mcf_ok ad ed row dd g d0 g0 hdd hnd hg0 hn0 ha he
    refine ⟨b, hb, ?_⟩
    rw [hl, hg0, pyreplace_bio g0 hn0]
  obtain ⟨bs, hbs, hlen, hall⟩ := emitAll_ok _ _ gds hstep
  refine ⟨bs, ?_, hlen, ?_⟩
  · simp only [write_relation_row, hd, hg, iterGeneVal]
    exact hbs
  · intro pr hpr g0 hg0 hn0
    have hthis := hall pr hpr
    rw [hg0, pyreplace_bio g0 hn0] at hthis
    exact hthis

theorem write_relation_row_per_gene_dcid_witness :
    ∃ blocks, write_relation_row ⟨"PA1", "G1", "", "", "", "", ""⟩ true
        [("G1", GeneVal.dcids ["bio/hg19_ABC", "bio/hg38_ABC"])]
        [("PA1", "bio/CHEMBL1")] (fun _ => none) (fun _ => none) = Except.ok blocks ∧
      blocks.length = (["bio/hg19_ABC", "bio/hg38_ABC"] : List String).length ∧
      ∀ pr ∈ blocks.zip ["bio/hg19_ABC", "bio/hg38_ABC"], ∀ g0, pr.2 = "bio/" ++ g0 →
        hasSub "bio/".data g0.data = false →
        pr.1.lookup "dcid" = some ("bio/CGA_" ++ "CHEMBL1" ++ "_" ++ g0) :=
  write_relation_row_per_gene_dcid ⟨"PA1", "G1", "", "", "", "", ""⟩ true
    [("G1", GeneVal.dcids ["bio/hg19_ABC", "bio/hg38_ABC"])] [("PA1", "bio/CHEMBL1")]
    (fun _ => none) (fun _ => none) "bio/CHEMBL1" "CHEMBL1"
    ["bio/hg19_ABC", "bio/hg38_ABC"]
    (by decide) (by decide) (by decide) (by decide)
    (by
      intro g hgm
      simp only [List.mem_cons, List.not_mem_nil, or_false] at hgm
      rcases hgm with h1 | h2
      · exact ⟨"hg19_ABC", by rw [h1]; decide, by decide⟩
      · exact ⟨"hg38_ABC", by rw [h2]; decide, by decide⟩)
    (by decide) (by decide)
